import Mathlib

/-
  Verification of the IPL points-table dashboard (src/app.py).

  The dashboard loads a CSV into a pandas DataFrame, offers a season
  selector, filters the rows to the selected season, assigns a 1-based
  positional rank, computes three summary statistics and renders an HTML
  table in which each team name is an anchor opening a Google search.

  The embedding below models the DataFrame as a list of typed rows
  (plus, where the schema check is concerned, an explicit column-name
  list), pandas missing values (NaN) in the season column as Option,
  and the Python float win percentage as a rational number.  Fallible
  steps (the int(...) conversion of a NaN maximum) return Except.
-/

set_option maxHeartbeats 1000000

deriving instance DecidableEq for Except

namespace IplApp

/-- A row of the standings CSV after the schema check has passed.
The season field is an Option because pandas represents a missing
season cell as NaN, which compares unequal to every season value and
is dropped by dropna. -/
structure StandingsRow where
  season : Option Int
  team : String
  matches_played : Int
  wins : Int
  losses : Int
  no_result : Int
  points : Int
  win_pct : Rat
deriving DecidableEq

/-- A standings row together with the positional rank column added at
line 149 of src/app.py. -/
structure RankedRow where
  row : StandingsRow
  rank : Nat
deriving DecidableEq

/-- The three KPI values computed at lines 152 to 154 of src/app.py. -/
structure SeasonSummary where
  team_count : Nat
  max_points : Int
  top_win_pct : Rat
deriving DecidableEq

/-- Embedding of pandas Series.max: none on an empty series (pandas
yields NaN there), otherwise the greatest element. -/
def seriesMax {A : Type} [LinearOrder A] : List A → Option A
  | [] => none
  | x :: xs => some (xs.foldl max x)

/-- Embedding of pandas Series.nunique on a string column with no
missing values: the number of distinct values. -/
def nunique (xs : List String) : Nat := xs.dedup.length

/-- Line 132 of src/app.py: the boolean-mask filter
df_all[df_all["season"] == season].  A NaN season compares unequal to
every selected season, so such rows are dropped. -/
def filterSeason (df : List StandingsRow) (sel : Int) : List StandingsRow :=
  df.filter (fun r => decide (r.season = some sel))

/-- Lines 148 and 149 of src/app.py: reset_index(drop=True) followed by
rank = index + 1.  No sorting happens (line 146 is commented out), so
each row keeps its position in the filtered order and receives that
position plus one as its rank. -/
def rankRows (rows : List StandingsRow) : List RankedRow :=
  rows.enum.map (fun p => { row := p.2, rank := p.1 + 1 })

/-- Lines 152 to 154 of src/app.py: teams_count = nunique of the team
column, max_points = int(points.max()), top_win = float(win_pct.max()).
On an empty slice points.max() is NaN and int(NaN) raises ValueError,
so the computation is fallible. -/
def computeSummary (rows : List StandingsRow) : Except String SeasonSummary :=
  match seriesMax (rows.map (fun r => r.points)), seriesMax (rows.map (fun r => r.win_pct)) with
  | some mp, some tw =>
      Except.ok { team_count := nunique (rows.map (fun r => r.team))
                , max_points := mp
                , top_win_pct := tw }
  | _, _ => Except.error ("ValueError: cannot convert float NaN to integer")

/-- The StandingsProjector of the spec: filter to the selected season,
assign positional ranks, compute the summary.  Fails exactly when the
summary computation fails. -/
def project (df : List StandingsRow) (sel : Int) :
    Except String (List RankedRow × SeasonSummary) :=
  match computeSummary (filterSeason df sel) with
  | Except.ok s => Except.ok (rankRows (filterSeason df sel), s)
  | Except.error e => Except.error e

/-- Line 129 of src/app.py: the option list of the season selector,
list(pd.Series(df_all["season"].dropna().unique()).sort_values()).
dropna removes NaN seasons, unique removes duplicates, sort_values
sorts ascending (the pandas default). -/
def seasonOptions (df : List StandingsRow) : List Int :=
  List.insertionSort (fun a b => a ≤ b) ((df.filterMap (fun r => r.season)).dedup)

/-- Line 130 of src/app.py: the default selection is the element at
index len(seasons) - 1, i.e. the last element of the option list. -/
def defaultSeason (df : List StandingsRow) : Option Int :=
  (seasonOptions df).getLast?

/-- A DataFrame viewed with its column names, for the schema checks at
lines 125 to 127 and 137 to 141 of src/app.py, which inspect
df.columns. -/
structure RawFrame where
  cols : List String
  data : List StandingsRow

/-- The seven required columns of line 137 of src/app.py, listed in the
lexicographic order produced by sorted(list(missing)) at line 140. -/
def requiredSorted : List String :=
  ["losses", "matches_played", "no_result", "points", "team", "win_pct", "wins"]

/-- Line 132 of src/app.py at the frame level: boolean-mask filtering
keeps the column set unchanged. -/
def filterSeasonFrame (df : RawFrame) (sel : Int) : RawFrame :=
  { cols := df.cols, data := filterSeason df.data sel }

/-- The two schema checks of src/app.py in program order: line 125
stops with a message naming the season column when it is absent;
otherwise line 138 computes required - set(df_season.columns) on the
frame already filtered to the selected season and, when that set is
non-empty, line 140 stops with the sorted list of missing names.
Returns some of the reported column-name list when rendering halts and
none when both checks pass. -/
def schemaOutcome (df : RawFrame) (sel : Int) : Option (List String) :=
  if "season" ∈ df.cols then
    let missing := requiredSorted.filter (fun c => decide (c ∉ (filterSeasonFrame df sel).cols))
    if missing.isEmpty then none else some missing
  else some (["season"])

/-- Lines 132 plus 148 to 155 of src/app.py with the dataset threaded
through explicitly: df_season is a copy (line 132 calls .copy()), the
rank column is added to that copy only, and the second component is
the full dataset as it stands after the projection ran. -/
def projectWithState (df_all : List StandingsRow) (sel : Int) :
    Except String (List RankedRow × SeasonSummary) × List StandingsRow :=
  let df_season := filterSeason df_all sel
  let ranked := rankRows df_season
  match computeSummary df_season with
  | Except.ok s => (Except.ok (ranked, s), df_all)
  | Except.error e => (Except.error e, df_all)

/-- UTF-8 encoding of one character, as Python str.encode produces it
before urllib.parse.quote_plus percent-encodes the bytes. -/
def charUtf8 (c : Char) : List UInt8 :=
  let n := c.toNat
  if n < 128 then [UInt8.ofNat n]
  else if n < 2048 then
    [UInt8.ofNat (192 + n / 64), UInt8.ofNat (128 + n % 64)]
  else if n < 65536 then
    [UInt8.ofNat (224 + n / 4096), UInt8.ofNat (128 + (n / 64) % 64), UInt8.ofNat (128 + n % 64)]
  else
    [UInt8.ofNat (240 + n / 262144), UInt8.ofNat (128 + (n / 4096) % 64),
     UInt8.ofNat (128 + (n / 64) % 64), UInt8.ofNat (128 + n % 64)]

/-- UTF-8 byte sequence of a string. -/
def strUtf8 (s : String) : List UInt8 := s.data.flatMap charUtf8

/-- Bytes urllib.parse.quote_plus never encodes: ASCII letters, digits,
underscore, full stop, hyphen and tilde. -/
def isSafeByte (b : UInt8) : Bool :=
  decide ((65 ≤ b.toNat ∧ b.toNat ≤ 90) ∨ (97 ≤ b.toNat ∧ b.toNat ≤ 122) ∨
    (48 ≤ b.toNat ∧ b.toNat ≤ 57) ∨ b.toNat = 95 ∨ b.toNat = 46 ∨ b.toNat = 45 ∨ b.toNat = 126)

/-- Upper-case hexadecimal digit, as urllib.parse.quote emits. -/
def hexUpper (n : Nat) : Char :=
  if n < 10 then Char.ofNat (48 + n) else Char.ofNat (55 + n)

/-- Percent-encoding of one byte. -/
def percentByte (b : UInt8) : String :=
  String.mk ['%', hexUpper (b.toNat / 16), hexUpper (b.toNat % 16)]

/-- quote_plus treatment of one byte: space becomes a plus sign, safe
bytes pass through, everything else is percent-encoded. -/
def quoteByte (b : UInt8) : String :=
  if b.toNat = 32 then ("+")
  else if isSafeByte b then String.mk [Char.ofNat b.toNat]
  else percentByte b

/-- Concatenation of the per-byte encodings. -/
def quoteBytes : List UInt8 → String
  | [] => ("")
  | b :: bs => quoteByte b ++ quoteBytes bs

/-- Embedding of urllib.parse.quote_plus as imported at line 3 and used
at line 181 of src/app.py. -/
def quote_plus (s : String) : String := quoteBytes (strUtf8 s)

/-- Lines 181 and 182 of src/app.py: the search URL built for a team. -/
def team_search_url (team : String) : String :=
  "https://www.google.com/search?q=" ++ quote_plus (team ++ (" IPL team"))

/-- Lines 180 to 183 of src/app.py: the anchor element rendered in the
Team column, with the search URL as href and target set to a new
browsing context. -/
def team_anchor (team : String) : String :=
  "<a class=\"team-link\" href=\"" ++ team_search_url team ++
    "\" target=\"_blank\" rel=\"noopener noreferrer\">" ++ team ++ "</a>"

/-- Ordering demanded by the spec for the displayed rows: points
descending, ties broken by win percentage descending.  Stated from the
spec sentence, to be compared with what the code produces. -/
def standingsOrdered (l : List RankedRow) : Prop :=
  List.Pairwise (fun a b => b.row.points ≤ a.row.points ∧
    (b.row.points = a.row.points → b.row.win_pct ≤ a.row.win_pct)) l

/-- Row constructor used by the concrete test datasets below. -/
def mkRow (s : Option Int) (t : String) (p : Int) (w : Rat) : StandingsRow :=
  { season := s, team := t, matches_played := 14, wins := 7, losses := 7,
    no_result := 0, points := p, win_pct := w }

/-- Season 2024 with the weaker team listed first in the CSV. -/
def sortDf : List StandingsRow :=
  [mkRow (some 2024) ("Alpha") 10 50, mkRow (some 2024) ("Bravo") 20 70]

/-- One row, season 2023 only, so that season 2024 gives an empty slice. -/
def emptySliceDf : List StandingsRow := [mkRow (some 2023) ("Alpha") 10 50]

/-- Season 2024 with the weaker team first, for the max-points claim. -/
def maxPointsDf : List StandingsRow :=
  [mkRow (some 2024) ("Alpha") 10 50, mkRow (some 2024) ("Bravo") 20 70]

/-- Two seasons of 2024 plus one stray 2023 row. -/
def ranksDf : List StandingsRow :=
  [mkRow (some 2024) ("Alpha") 10 50, mkRow (some 2024) ("Bravo") 20 70,
   mkRow (some 2023) ("Carol") 12 60]

/-- A frame whose column list misses both season and win_pct. -/
def missingTwoFrame : RawFrame :=
  { cols := ["team", "matches_played", "wins", "losses", "no_result", "points"], data := [] }

/-- A frame with the season column present and exactly win_pct missing. -/
def missingWinPctFrame : RawFrame :=
  { cols := ["season", "team", "matches_played", "wins", "losses", "no_result", "points"],
    data := [] }

/-- Rows for seasons 2020 and 2021. -/
def twoSeasonsDf : List StandingsRow :=
  [mkRow (some 2020) ("Alpha") 10 50, mkRow (some 2021) ("Bravo") 12 60]

/-- Season 2024 rows with two distinct teams. -/
def teamsDf : List StandingsRow :=
  [mkRow (some 2024) ("Alpha") 10 50, mkRow (some 2024) ("Bravo") 20 70]

/-- A dataset with one 2024 row and one 2023 row. -/
def pureDf : List StandingsRow :=
  [mkRow (some 2024) ("Alpha") 10 50, mkRow (some 2023) ("Bravo") 12 60]

/-- The 2024 slice of pureDf on its own. -/
def pureDf2 : List StandingsRow := [mkRow (some 2024) ("Alpha") 10 50]

theorem le_foldl_max {A : Type} [LinearOrder A] : ∀ (l : List A) (x : A), x ≤ l.foldl max x
  | [], x => le_refl x
  | y :: ys, x => le_trans (le_max_left x y) (le_foldl_max ys (max x y))

theorem foldl_max_choice {A : Type} [LinearOrder A] :
    ∀ (l : List A) (x : A), l.foldl max x = x ∨ l.foldl max x ∈ l
  | [], _ => Or.inl rfl
  | y :: ys, x => by
    simp only [List.foldl_cons]
    rcases foldl_max_choice ys (max x y) with h | h
    · rcases max_choice x y with hxy | hxy
      · exact Or.inl (by rw [h, hxy])
      · exact Or.inr (by rw [h, hxy]; exact List.mem_cons_self y ys)
    · exact Or.inr (List.mem_cons_of_mem y h)

theorem le_foldl_max_of_mem {A : Type} [LinearOrder A] :
    ∀ (l : List A) (x a : A), a ∈ l → a ≤ l.foldl max x
  | [], _, a, h => absurd h (List.not_mem_nil a)
  | y :: ys, x, a, h => by
    simp only [List.foldl_cons]
    rcases List.mem_cons.mp h with rfl | h2
    · exact le_trans (le_max_right x a) (le_foldl_max ys (max x a))
    · exact le_foldl_max_of_mem ys (max x y) a h2

theorem seriesMax_mem {A : Type} [LinearOrder A] {l : List A} {m : A}
    (h : seriesMax l = some m) : m ∈ l := by
  cases l with
  | nil => cases h
  | cons x xs =>
    simp only [seriesMax, Option.some.injEq] at h
    subst h
    rcases foldl_max_choice xs x with h2 | h2
    · rw [h2]; exact List.mem_cons_self x xs
    · exact List.mem_cons_of_mem x h2

theorem le_seriesMax {A : Type} [LinearOrder A] {l : List A} {m a : A}
    (ha : a ∈ l) (h : seriesMax l = some m) : a ≤ m := by
  cases l with
  | nil => cases ha
  | cons x xs =>
    simp only [seriesMax, Option.some.injEq] at h
    subst h
    rcases List.mem_cons.mp ha with rfl | h2
    · exact le_foldl_max xs a
    · exact le_foldl_max_of_mem xs x a h2

theorem computeSummary_ok_inv {rows : List StandingsRow} {s : SeasonSummary}
    (h : computeSummary rows = Except.ok s) :
    seriesMax (rows.map (fun r => r.points)) = some s.max_points ∧
      seriesMax (rows.map (fun r => r.win_pct)) = some s.top_win_pct ∧
      s.team_count = nunique (rows.map (fun r => r.team)) := by
  unfold computeSummary at h
  cases hp : seriesMax (rows.map (fun r => r.points)) with
  | none =>
    cases hw : seriesMax (rows.map (fun r => r.win_pct)) with
    | none => rw [hp, hw] at h; exact Except.noConfusion h
    | some tw => rw [hp, hw] at h; exact Except.noConfusion h
  | some mp =>
    cases hw : seriesMax (rows.map (fun r => r.win_pct)) with
    | none => rw [hp, hw] at h; exact Except.noConfusion h
    | some tw =>
      rw [hp, hw] at h
      injection h with h2
      subst h2
      refine ⟨?_, ?_, rfl⟩
      · simp
      · simp

theorem computeSummary_ok_of_ne_nil {rows : List StandingsRow} (h : rows ≠ []) :
    ∃ s, computeSummary rows = Except.ok s := by
  cases rows with
  | nil => exact absurd rfl h
  | cons r t => exact ⟨_, rfl⟩

theorem project_ok_inv {df : List StandingsRow} {sel : Int} {ranked : List RankedRow}
    {s : SeasonSummary} (h : project df sel = Except.ok (ranked, s)) :
    ranked = rankRows (filterSeason df sel) ∧
      computeSummary (filterSeason df sel) = Except.ok s := by
  unfold project at h
  cases hc : computeSummary (filterSeason df sel) with
  | ok s2 =>
    rw [hc] at h
    injection h with h2
    injection h2 with h3 h4
    exact ⟨h3.symm, by rw [h4]⟩
  | error e => rw [hc] at h; exact Except.noConfusion h

theorem rankRows_map_row (rows : List StandingsRow) :
    (rankRows rows).map (fun r => r.row) = rows := by
  unfold rankRows
  rw [List.map_map]
  exact List.enum_map_snd rows

theorem rankRows_map_comp {B : Type} (rows : List StandingsRow) (f : StandingsRow → B) :
    (rankRows rows).map (fun x => f x.row) = rows.map f := by
  conv_rhs => rw [← rankRows_map_row rows]
  rw [List.map_map]
  rfl

theorem rankRows_map_rank (rows : List StandingsRow) :
    (rankRows rows).map (fun r => r.rank) = List.range' 1 rows.length := by
  unfold rankRows
  rw [List.map_map, List.range'_eq_map_range]
  have h1 : ((fun r : RankedRow => r.rank) ∘
      (fun p : Nat × StandingsRow => ({ row := p.2, rank := p.1 + 1 } : RankedRow))) =
      (fun n : Nat => n + 1) ∘ Prod.fst := rfl
  rw [h1, ← List.map_map, List.enum_map_fst]
  refine List.map_congr_left ?_
  intro a _
  omega

theorem rankRows_length (rows : List StandingsRow) : (rankRows rows).length = rows.length := by
  unfold rankRows
  rw [List.length_map, List.enum_length]

theorem mem_seasonOptions {df : List StandingsRow} {s : Int} :
    s ∈ seasonOptions df ↔ ∃ r ∈ df, r.season = some s := by
  unfold seasonOptions
  rw [(List.perm_insertionSort (fun a b : Int => a ≤ b) _).mem_iff, List.mem_dedup,
    List.mem_filterMap]

theorem seasonOptions_sorted (df : List StandingsRow) :
    List.Sorted (fun a b : Int => a ≤ b) (seasonOptions df) :=
  List.sorted_insertionSort _ _

theorem seasonOptions_nodup (df : List StandingsRow) : (seasonOptions df).Nodup :=
  ((List.perm_insertionSort _ _).nodup_iff).mpr (List.nodup_dedup _)

theorem mem_of_getLast?_eq {A : Type} {l : List A} {m : A} (h : l.getLast? = some m) :
    m ∈ l := by
  cases l with
  | nil => cases h
  | cons x t =>
    rw [List.getLast?_eq_getLast (x :: t) (by simp)] at h
    injection h with h2
    rw [← h2]
    exact List.getLast_mem (by simp)

theorem sorted_le_getLast {l : List Int} (hs : List.Sorted (fun a b : Int => a ≤ b) l)
    {a m : Int} (ha : a ∈ l) (hm : l.getLast? = some m) : a ≤ m := by
  induction l with
  | nil => cases ha
  | cons x t ih =>
    rw [List.sorted_cons] at hs
    cases t with
    | nil =>
      have hx : m = x := by
        have : (some x : Option Int) = some m := hm
        injection this with h2
        exact h2.symm
      rcases List.mem_singleton.mp ha with rfl
      exact le_of_eq hx.symm
    | cons y t2 =>
      have hm2 : (y :: t2).getLast? = some m := hm
      rcases List.mem_cons.mp ha with rfl | h2
      · exact hs.1 m (mem_of_getLast?_eq hm2)
      · exact ih hs.2 h2 hm2

theorem filterSeasonFrame_cols (df : RawFrame) (sel : Int) :
    (filterSeasonFrame df sel).cols = df.cols := rfl

theorem filterMap_season_filter_isSome (df : List StandingsRow) :
    (df.filter (fun r => r.season.isSome)).filterMap (fun r => r.season) =
      df.filterMap (fun r => r.season) := by
  induction df with
  | nil => rfl
  | cons r t ih =>
    cases hr : r.season with
    | none => simp [List.filter_cons, List.filterMap_cons, hr, ih]
    | some v => simp [List.filter_cons, List.filterMap_cons, hr, ih]

theorem string_append_assoc (a b c : String) : a ++ b ++ c = a ++ (b ++ c) :=
  String.ext (by simp only [String.data_append, List.append_assoc])

theorem strUtf8_append (a b : String) : strUtf8 (a ++ b) = strUtf8 a ++ strUtf8 b := by
  unfold strUtf8
  rw [String.data_append, List.flatMap_append]

theorem string_nil_append (s : String) : ("") ++ s = s :=
  String.ext (by simp only [String.data_append]; rfl)

theorem quoteBytes_append (xs ys : List UInt8) :
    quoteBytes (xs ++ ys) = quoteBytes xs ++ quoteBytes ys := by
  induction xs with
  | nil => rw [List.nil_append]; exact (string_nil_append _).symm
  | cons b bs ih =>
    rw [List.cons_append]
    have h1 : quoteBytes (b :: (bs ++ ys)) = quoteByte b ++ quoteBytes (bs ++ ys) := rfl
    have h2 : quoteBytes (b :: bs) = quoteByte b ++ quoteBytes bs := rfl
    rw [h1, ih, h2, string_append_assoc]

theorem quote_plus_append (a b : String) :
    quote_plus (a ++ b) = quote_plus a ++ quote_plus b := by
  unfold quote_plus
  rw [strUtf8_append, quoteBytes_append]

theorem projectWithState_fst (df : List StandingsRow) (sel : Int) :
    (projectWithState df sel).1 = project df sel := by
  unfold projectWithState project
  cases hc : computeSummary (filterSeason df sel) <;> simp [hc]

theorem projectWithState_snd (df : List StandingsRow) (sel : Int) :
    (projectWithState df sel).2 = df := by
  unfold projectWithState
  cases hc : computeSummary (filterSeason df sel) <;> simp [hc]

theorem requiredSorted_sorted : List.Sorted (fun a b : String => a ≤ b) requiredSorted := by
  have h : List.Sorted (fun a b : String => a.toList ≤ b.toList) requiredSorted := by decide
  exact h.imp (fun hab => String.le_iff_toList_le.mpr hab)

theorem project_congr_filter (df df2 : List StandingsRow) (sel : Int)
    (h : filterSeason df sel = filterSeason df2 sel) :
    project df sel = project df2 sel := by
  unfold project
  rw [h]

/-- C1, counterexample: on sortDf, whose 2024 slice lists the 10-point
team before the 20-point team, the projection succeeds yet its output
is not sorted by points descending (line 146 of src/app.py, the sort,
is commented out), refuting the claimed ordering. -/
theorem c1_counterexample :
    ∃ ranked s, project sortDf 2024 = Except.ok (ranked, s) ∧ ¬ standingsOrdered ranked := by
  refine ⟨rankRows (filterSeason sortDf 2024),
    { team_count := 2, max_points := 20, top_win_pct := 70 }, rfl, ?_⟩
  unfold standingsOrdered
  decide

/-- C1 as amended: the projection performs no sort at all; the rows it
returns are exactly the rows of the selected season in their original
dataset order (so every pair of rows, tied or not, keeps its original
relative order), and the rank column is the position in that order. -/
theorem c1_amended (df : List StandingsRow) (sel : Int) (ranked : List RankedRow)
    (s : SeasonSummary) (h : project df sel = Except.ok (ranked, s)) :
    ranked.map (fun r => r.row) = filterSeason df sel ∧
      ranked.map (fun r => r.rank) = List.range' 1 (filterSeason df sel).length := by
  obtain ⟨hr, _⟩ := project_ok_inv h
  subst hr
  exact ⟨rankRows_map_row _, rankRows_map_rank _⟩

/-- C1 witness: the amended statement evaluated on sortDf. -/
theorem c1_amended_witness :
    (rankRows (filterSeason sortDf 2024)).map (fun r => r.row) = filterSeason sortDf 2024 ∧
      (rankRows (filterSeason sortDf 2024)).map (fun r => r.rank) =
        List.range' 1 (filterSeason sortDf 2024).length :=
  c1_amended sortDf 2024 _ { team_count := 2, max_points := 20, top_win_pct := 70 } (by decide)

/-- C2, counterexample: selecting season 2024 in emptySliceDf (which
only has a 2023 row) gives an empty slice, and the projection then
fails at int(points.max()) instead of returning the zero summary the
claim promises. -/
theorem c2_counterexample :
    project emptySliceDf 2024 =
        Except.error ("ValueError: cannot convert float NaN to integer") ∧
      project emptySliceDf 2024 ≠
        Except.ok ([], { team_count := 0, max_points := 0, top_win_pct := 0 }) := by
  exact ⟨rfl, by decide⟩

/-- C2 as amended: for every dataset and selected season whose slice is
empty, the projection does not succeed: it raises the ValueError of
int(NaN) at line 153 of src/app.py and returns no rows and no summary. -/
theorem c2_amended (df : List StandingsRow) (sel : Int) (h : filterSeason df sel = []) :
    project df sel = Except.error ("ValueError: cannot convert float NaN to integer") := by
  unfold project
  rw [h]
  rfl

/-- C2 witness: the amended statement evaluated on emptySliceDf. -/
theorem c2_amended_witness :
    project emptySliceDf 2024 =
      Except.error ("ValueError: cannot convert float NaN to integer") :=
  c2_amended emptySliceDf 2024 (by decide)

/-- C3, counterexample: on maxPointsDf the rank-1 row is the first row
of the unsorted slice, which has 10 points, while max_points is 20, so
max_points differs from the points of the rank-1 row. -/
theorem c3_counterexample :
    ∃ ranked s, project maxPointsDf 2024 = Except.ok (ranked, s) ∧
      (ranked.find? (fun r => r.rank == 1)).map (fun r => r.row.points) ≠
        some s.max_points := by
  refine ⟨rankRows (filterSeason maxPointsDf 2024),
    { team_count := 2, max_points := 20, top_win_pct := 70 }, rfl, ?_⟩
  decide

/-- C3 as amended: whenever the projection succeeds, max_points is the
maximum of the points values over all returned rows (attained by some
returned row), but not necessarily by the rank-1 row, because the rows
are not sorted. -/
theorem c3_amended (df : List StandingsRow) (sel : Int) (ranked : List RankedRow)
    (s : SeasonSummary) (h : project df sel = Except.ok (ranked, s)) :
    (∃ r ∈ ranked, r.row.points = s.max_points) ∧
      ∀ r ∈ ranked, r.row.points ≤ s.max_points := by
  obtain ⟨hr, hc⟩ := project_ok_inv h
  obtain ⟨hp, _, _⟩ := computeSummary_ok_inv hc
  subst hr
  constructor
  · have hmem := seriesMax_mem hp
    obtain ⟨row, hrow, hpts⟩ := List.mem_map.mp hmem
    have : row ∈ (rankRows (filterSeason df sel)).map (fun r => r.row) := by
      rw [rankRows_map_row]
      exact hrow
    obtain ⟨r, hrmem, hrr⟩ := List.mem_map.mp this
    exact ⟨r, hrmem, by rw [hrr, hpts]⟩
  · intro r hrmem
    have h1 : r.row.points ∈ (rankRows (filterSeason df sel)).map (fun x => x.row.points) :=
      List.mem_map_of_mem _ hrmem
    rw [rankRows_map_comp (filterSeason df sel) (fun x => x.points)] at h1
    exact le_seriesMax h1 hp

/-- C3 witness: the bound of the amended statement evaluated at the
first returned row of maxPointsDf. -/
theorem c3_amended_witness :
    ({ row := mkRow (some 2024) ("Alpha") 10 50, rank := 1 } : RankedRow).row.points ≤
      ({ team_count := 2, max_points := 20, top_win_pct := 70 } : SeasonSummary).max_points :=
  (c3_amended maxPointsDf 2024 (rankRows (filterSeason maxPointsDf 2024))
    { team_count := 2, max_points := 20, top_win_pct := 70 } (by decide)).2
    { row := mkRow (some 2024) ("Alpha") 10 50, rank := 1 } (by decide)

/-- C4: for every valid selected season (one offered by the selector),
the projection succeeds, returns exactly as many rows as the dataset
has for that season, and the rank values are exactly the contiguous
list 1..N in order, with no gaps and no repeats. -/
theorem c4_ranks (df : List StandingsRow) (sel : Int) (h : sel ∈ seasonOptions df) :
    Except.map (fun out => (out.1.length, out.1.map (fun r => r.rank))) (project df sel) =
      Except.ok ((filterSeason df sel).length,
        List.range' 1 (filterSeason df sel).length) := by
  obtain ⟨r0, hr0, hseason⟩ := mem_seasonOptions.mp h
  have hne : filterSeason df sel ≠ [] := by
    intro hnil
    have hmem : r0 ∈ filterSeason df sel := by
      unfold filterSeason
      rw [List.mem_filter]
      exact ⟨hr0, by rw [hseason]; simp⟩
    rw [hnil] at hmem
    exact List.not_mem_nil r0 hmem
  obtain ⟨s, hs⟩ := computeSummary_ok_of_ne_nil hne
  have hproj : project df sel = Except.ok (rankRows (filterSeason df sel), s) := by
    unfold project
    rw [hs]
  rw [hproj]
  simp only [Except.map]
  rw [rankRows_length, rankRows_map_rank]

/-- C4 witness: the statement evaluated on ranksDf at season 2024. -/
theorem c4_ranks_witness :
    Except.map (fun out => (out.1.length, out.1.map (fun r => r.rank)))
        (project ranksDf 2024) =
      Except.ok ((filterSeason ranksDf 2024).length,
        List.range' 1 (filterSeason ranksDf 2024).length) :=
  c4_ranks ranksDf 2024 (by decide)

/-- C5, counterexample: when both season and win_pct are missing, the
program halts at the season check (line 125 of src/app.py) with a
message naming only the season column, so the reported list does not
list every missing required column, refuting the claim as stated. -/
theorem c5_counterexample :
    schemaOutcome missingTwoFrame 2024 = some (["season"]) ∧
      "win_pct" ∉ missingTwoFrame.cols ∧ "win_pct" ∉ (["season"]) := by
  decide

/-- C5 as amended: whenever any required column (season included) is
missing, rendering halts with a schema error whose reported list is
non-empty and does not depend on the selected season; if season itself
is missing the message names only season, and otherwise the message
lists exactly the missing columns among the other seven. -/
theorem c5_amended (df : RawFrame) (sel sel2 : Int)
    (h : ∃ c, c ∈ ("season" :: requiredSorted) ∧ c ∉ df.cols) :
    (∃ l, schemaOutcome df sel = some l ∧ l ≠ [] ∧
        List.Sorted (fun a b : String => a ≤ b) l ∧ l.Nodup ∧
        (("season" ∈ df.cols ∧
            ∀ c : String, c ∈ l ↔ (c ∈ requiredSorted ∧ c ∉ df.cols)) ∨
          ("season" ∉ df.cols ∧ l = ["season"]))) ∧
      schemaOutcome df sel = schemaOutcome df sel2 := by
  refine ⟨?_, rfl⟩
  by_cases hs : "season" ∈ df.cols
  · obtain ⟨c, hc1, hc2⟩ := h
    have hcr : c ∈ requiredSorted := by
      rcases List.mem_cons.mp hc1 with rfl | h2
      · exact absurd hs hc2
      · exact h2
    have hmem : c ∈ requiredSorted.filter
        (fun c => decide (c ∉ (filterSeasonFrame df sel).cols)) := by
      rw [List.mem_filter]
      refine ⟨hcr, ?_⟩
      rw [filterSeasonFrame_cols]
      exact decide_eq_true hc2
    have hne : ¬ (requiredSorted.filter
        (fun c => decide (c ∉ (filterSeasonFrame df sel).cols))).isEmpty = true := by
      rw [List.isEmpty_iff]
      intro hnil
      rw [hnil] at hmem
      exact List.not_mem_nil c hmem
    refine ⟨requiredSorted.filter (fun c => decide (c ∉ (filterSeasonFrame df sel).cols)),
      ?_, ?_, ?_, ?_, Or.inl ⟨hs, fun c2 => ?_⟩⟩
    · unfold schemaOutcome
      rw [if_pos hs, if_neg hne]
    · intro hnil
      rw [hnil] at hmem
      exact List.not_mem_nil c hmem
    · exact List.Sorted.filter _ requiredSorted_sorted
    · exact List.Nodup.filter _ (by decide : requiredSorted.Nodup)
    · simp [List.mem_filter, filterSeasonFrame_cols]
  · refine ⟨["season"], ?_, by simp, by decide, by decide, Or.inr ⟨hs, rfl⟩⟩
    unfold schemaOutcome
    rw [if_neg hs]

/-- C5 witness: the season-independence of the schema outcome on a
frame missing exactly win_pct. -/
theorem c5_amended_witness :
    schemaOutcome missingWinPctFrame 2024 = schemaOutcome missingWinPctFrame 2025 :=
  (c5_amended missingWinPctFrame 2024 2025 ⟨"win_pct", by decide, by decide⟩).2

/-- C6, counterexample: on twoSeasonsDf the selector lists the seasons
ascending, 2020 before 2021 (sort_values at line 129 of src/app.py
sorts ascending), not in the descending order the claim states. -/
theorem c6_counterexample :
    seasonOptions twoSeasonsDf = [2020, 2021] ∧
      ¬ List.Sorted (fun a b : Int => b ≤ a) (seasonOptions twoSeasonsDf) := by
  decide

/-- C6 as amended: the selector offers exactly the distinct non-null
season values, without duplicates, in ascending order, and its default
selection (the last option) is the most recent season, the maximum. -/
theorem c6_amended (df : List StandingsRow) :
    List.Sorted (fun a b : Int => a ≤ b) (seasonOptions df) ∧
      (seasonOptions df).Nodup ∧
      (∀ s : Int, s ∈ seasonOptions df ↔ ∃ r ∈ df, r.season = some s) ∧
      ∀ m : Int, defaultSeason df = some m →
        m ∈ seasonOptions df ∧ ∀ s ∈ seasonOptions df, s ≤ m := by
  refine ⟨seasonOptions_sorted df, seasonOptions_nodup df, fun s => mem_seasonOptions, ?_⟩
  intro m hm
  exact ⟨mem_of_getLast?_eq hm,
    fun s hsmem => sorted_le_getLast (seasonOptions_sorted df) hsmem hm⟩

/-- C6 witness: on twoSeasonsDf the default is 2021, it is offered, and
the other option 2020 is below it. -/
theorem c6_amended_witness :
    2021 ∈ seasonOptions twoSeasonsDf ∧ (2020 : Int) ≤ 2021 := by
  refine ⟨((c6_amended twoSeasonsDf).2.2.2 2021 (by decide)).1, ?_⟩
  exact ((c6_amended twoSeasonsDf).2.2.2 2021 (by decide)).2 2020 (by decide)

/-- C7: whenever the projection succeeds, team_count equals the number
of distinct team values among the returned rows. -/
theorem c7_team_count (df : List StandingsRow) (sel : Int) (ranked : List RankedRow)
    (s : SeasonSummary) (h : project df sel = Except.ok (ranked, s)) :
    s.team_count = (ranked.map (fun r => r.row.team)).toFinset.card := by
  obtain ⟨hr, hc⟩ := project_ok_inv h
  obtain ⟨_, _, ht⟩ := computeSummary_ok_inv hc
  subst hr
  rw [ht, List.card_toFinset, rankRows_map_comp (filterSeason df sel) (fun x => x.team)]
  rfl

/-- C7 witness: the statement evaluated on teamsDf at season 2024. -/
theorem c7_team_count_witness :
    ({ team_count := 2, max_points := 20, top_win_pct := 70 } : SeasonSummary).team_count =
      ((rankRows (filterSeason teamsDf 2024)).map (fun r => r.row.team)).toFinset.card :=
  c7_team_count teamsDf 2024 _ _ (by decide)

/-- C8: the anchor built for a team carries as href exactly the URL
https://www.google.com/search?q=Q, where Q is the quote_plus encoding
of the string consisting of the team name followed by a space and IPL
team (the space encoded as a plus sign), and the anchor opens in a new
browsing context (target is _blank). -/
theorem c8_team_anchor (team : String) :
    (∃ pre post, team_anchor team =
        pre ++ ("href=\"" ++ team_search_url team ++ "\"") ++ post) ∧
      (∃ pre post, team_anchor team = pre ++ "target=\"_blank\"" ++ post) ∧
      team_search_url team =
        ("https://www.google.com/search?q=" ++ quote_plus team) ++ "+IPL+team" := by
  refine ⟨?_, ?_, ?_⟩
  · refine ⟨"<a class=\"team-link\" ",
      " target=\"_blank\" rel=\"noopener noreferrer\">" ++ team ++ "</a>", ?_⟩
    apply String.ext
    simp only [team_anchor, String.data_append, List.append_assoc, List.cons_append,
      List.nil_append]
  · refine ⟨"<a class=\"team-link\" href=\"" ++ team_search_url team ++ "\" ",
      " rel=\"noopener noreferrer\">" ++ team ++ "</a>", ?_⟩
    apply String.ext
    simp only [team_anchor, String.data_append, List.append_assoc, List.cons_append,
      List.nil_append]
  · unfold team_search_url
    rw [quote_plus_append,
      (by decide : quote_plus (" IPL team") = ("+IPL+team")), ← string_append_assoc]

/-- C9: the projection is deterministic, leaves the dataset unchanged
(the season slice is copied before the rank column is added), agrees
with the pure projection function, and its output depends only on the
rows of the selected season. -/
theorem c9_pure (df : List StandingsRow) (sel : Int) :
    projectWithState df sel = projectWithState df sel ∧
      (projectWithState df sel).2 = df ∧
      (projectWithState df sel).1 = project df sel ∧
      ∀ df2 : List StandingsRow, filterSeason df sel = filterSeason df2 sel →
        (projectWithState df sel).1 = (projectWithState df2 sel).1 := by
  refine ⟨rfl, projectWithState_snd df sel, projectWithState_fst df sel, ?_⟩
  intro df2 h2
  rw [projectWithState_fst, projectWithState_fst, project_congr_filter df df2 sel h2]

/-- C9 witness: the dependence clause evaluated on pureDf and its own
2024 slice pureDf2. -/
theorem c9_pure_witness :
    (projectWithState pureDf 2024).1 = (projectWithState pureDf2 2024).1 :=
  (c9_pure pureDf 2024).2.2.2 pureDf2 (by decide)

/-- C10: the season selector offers exactly the distinct non-null
season values of the dataset, and rows whose season is missing (NaN)
never contribute an option: filtering them away leaves the option list
unchanged. -/
theorem c10_dropna (df : List StandingsRow) :
    (∀ s : Int, s ∈ seasonOptions df ↔ ∃ r ∈ df, r.season = some s) ∧
      seasonOptions (df.filter (fun r => r.season.isSome)) = seasonOptions df := by
  refine ⟨fun s => mem_seasonOptions, ?_⟩
  unfold seasonOptions
  rw [filterMap_season_filter_isSome]

end IplApp
